import Mathlib

/-!
# react-three-mind-experiment: the registration and anchor-pose pipeline of `src/App.jsx`

A shallow embedding of the arithmetic of `App.jsx`:

* `resize` (lines 42-94): cover-fit placement of the video and the camera parameters;
* the `postMatrixs` loop of `startAR` (lines 121-135);
* `controller.onUpdate` (lines 105-115) and the effect of `ARAnchor` (lines 198-214);
* `loadedMetadataHandler` (lines 148-156).

Numbers are JavaScript numbers with exact rational arithmetic on the finite values: `JSNum`
keeps `Infinity`, `-Infinity` and `NaN` as values of their own, so a division by zero is what
JavaScript makes of it and not an error. Rounding and overflow of binary floating point are not
modelled, and there is one zero (the sign of a zero is not tracked; a zero divisor counts as `+0`).
-/

namespace ReactThreeMind

/-! ## JavaScript numbers -/

/-- JavaScript number: a finite value (an exact rational here), `Infinity`, `-Infinity`, `NaN`. -/
inductive JSNum where
  | fin (q : ℚ)
  | pinf
  | ninf
  | nan
deriving DecidableEq

namespace JSNum

instance instOfNatJSNum (n : Nat) : OfNat JSNum n := ⟨fin n⟩

instance : Inhabited JSNum := ⟨fin 0⟩

/-- Unary minus. -/
def neg : JSNum → JSNum
  | fin a => fin (-a)
  | pinf => ninf
  | ninf => pinf
  | nan => nan

/-- Addition, `x + y` on numbers. -/
def add : JSNum → JSNum → JSNum
  | fin a, fin b => fin (a + b)
  | fin _, pinf => pinf
  | fin _, ninf => ninf
  | pinf, fin _ => pinf
  | pinf, pinf => pinf
  | pinf, ninf => nan
  | ninf, fin _ => ninf
  | ninf, pinf => nan
  | ninf, ninf => ninf
  | nan, _ => nan
  | _, nan => nan

/-- Product of a finite `a` and an infinity (`Infinity` when `positive`, else `-Infinity`):
`NaN` when `a` is zero, else the infinity whose sign is the product of the two signs. -/
def infTimes (a : ℚ) (positive : Bool) : JSNum :=
  if a = 0 then nan
  else if 0 < a then (if positive then pinf else ninf)
  else (if positive then ninf else pinf)

/-- Multiplication, `x * y`. -/
def mul : JSNum → JSNum → JSNum
  | fin a, fin b => fin (a * b)
  | fin a, pinf => infTimes a true
  | fin a, ninf => infTimes a false
  | pinf, fin b => infTimes b true
  | ninf, fin b => infTimes b false
  | pinf, pinf => pinf
  | pinf, ninf => ninf
  | ninf, pinf => ninf
  | ninf, ninf => pinf
  | nan, _ => nan
  | _, nan => nan

/-- Division, `x / y`. A finite value over zero is an infinity of the sign of the numerator,
`0 / 0` is `NaN`, a finite value over an infinity is zero. -/
def div : JSNum → JSNum → JSNum
  | fin a, fin b => if b = 0 then infTimes a true else fin (a / b)
  | fin _, pinf => fin 0
  | fin _, ninf => fin 0
  | pinf, fin b => if 0 ≤ b then pinf else ninf
  | ninf, fin b => if 0 ≤ b then ninf else pinf
  | pinf, pinf => nan
  | pinf, ninf => nan
  | ninf, pinf => nan
  | ninf, ninf => nan
  | nan, _ => nan
  | _, nan => nan

instance : Neg JSNum := ⟨neg⟩
instance : Add JSNum := ⟨add⟩
instance : Sub JSNum := ⟨fun x y => add x (neg y)⟩
instance : Mul JSNum := ⟨mul⟩
instance : Div JSNum := ⟨div⟩

/-- The comparison `x > y`: false as soon as one side is `NaN`. -/
def gt : JSNum → JSNum → Bool
  | fin a, fin b => decide (b < a)
  | fin _, ninf => true
  | pinf, fin _ => true
  | pinf, ninf => true
  | _, _ => false

/-- The comparison `x < y`. -/
def lt (x y : JSNum) : Bool := gt y x

/-- The comparison `x >= y`: false as soon as one side is `NaN`. -/
def ge : JSNum → JSNum → Bool
  | fin a, fin b => decide (b ≤ a)
  | fin _, ninf => true
  | pinf, fin _ => true
  | pinf, pinf => true
  | pinf, ninf => true
  | ninf, ninf => true
  | _, _ => false

/-- The comparison `x <= y`. -/
def le (x y : JSNum) : Bool := ge y x

end JSNum

open JSNum

/-! ## The host objects `resize` reads and writes -/

/-- The values a style property of the video takes here: unset, or `n + "px"` for a number `n`. -/
inductive CssValue where
  | unset
  | px (n : JSNum)
deriving DecidableEq

/-- Style of the video element: `webcam.current.video.style`. -/
structure VideoStyle where
  top : CssValue
  left : CssValue
  width : CssValue
  height : CssValue
deriving DecidableEq

/-- The video element `webcam.current.video`: native size, the `width` and `height` attributes,
and its style. -/
structure Video where
  videoWidth : JSNum
  videoHeight : JSNum
  width : JSNum
  height : JSNum
  style : VideoStyle

/-- The container element `container.current`. -/
structure Container where
  clientWidth : JSNum
  clientHeight : JSNum

/-- The tracking controller: its input size and the array `getProjectionMatrix()` returns. -/
structure Controller where
  inputWidth : JSNum
  inputHeight : JSNum
  getProjectionMatrix : Nat → JSNum

/-- The fields of the render camera that `resize` assigns. -/
structure Camera where
  fov : JSNum
  near : JSNum
  far : JSNum
  aspect : JSNum
deriving DecidableEq

/-- The part of `Math` that `resize` uses; `Math.atan` is not a rational function and is a
parameter of the model. -/
structure JSMath where
  atan : JSNum → JSNum
  PI : JSNum

/-- Everything `resize` and `loadedMetadataHandler` touch. -/
structure World where
  camera : Camera
  video : Video
  container : Container
  controller : Controller

/-- The local variables of `resize`; `fovArg` names the argument of `Math.atan` on line 79. -/
structure ResizeLocals where
  videoRatio : JSNum
  containerRatio : JSNum
  vw : JSNum
  vh : JSNum
  inputRatio : JSNum
  inputAdjust : JSNum
  videoDisplayHeight : JSNum
  fovAdjust : JSNum
  fovArg : JSNum
  fov : JSNum
  near : JSNum
  far : JSNum
  ratio : JSNum

/-- The body of `resize` up to the assignments (`App.jsx` lines 45-82). -/
def resizeLocals (M : JSMath) (w : World) : ResizeLocals :=
  let videoRatio := w.video.videoWidth / w.video.videoHeight
  let containerRatio := w.container.clientWidth / w.container.clientHeight
  let vwvh : JSNum × JSNum :=
    if gt videoRatio containerRatio then
      let vh := w.container.clientHeight
      let vw := vh * videoRatio
      (vw, vh)
    else
      let vw := w.container.clientWidth
      let vh := vw / videoRatio
      (vw, vh)
  let vw := vwvh.1
  let vh := vwvh.2
  let proj := w.controller.getProjectionMatrix
  let inputRatio := w.controller.inputWidth / w.controller.inputHeight
  let inputAdjust :=
    if gt inputRatio containerRatio then
      w.video.width / w.controller.inputWidth
    else
      w.video.height / w.controller.inputHeight
  let videoDisplayHeight : JSNum :=
    if gt inputRatio containerRatio then
      let videoDisplayHeight := w.container.clientHeight
      videoDisplayHeight * inputAdjust
    else
      let videoDisplayWidth := w.container.clientWidth
      let videoDisplayHeight := videoDisplayWidth / w.controller.inputWidth * w.controller.inputHeight
      videoDisplayHeight * inputAdjust
  let fovAdjust := w.container.clientHeight / videoDisplayHeight
  let fovArg := 1 / proj 5 * fovAdjust
  let fov := 2 * M.atan fovArg * 180 / M.PI
  let near := proj 14 / (proj 10 - 1)
  let far := proj 14 / (proj 10 + 1)
  let ratio := proj 5 / proj 0
  { videoRatio := videoRatio, containerRatio := containerRatio, vw := vw, vh := vh,
    inputRatio := inputRatio, inputAdjust := inputAdjust,
    videoDisplayHeight := videoDisplayHeight, fovAdjust := fovAdjust, fovArg := fovArg,
    fov := fov, near := near, far := far, ratio := ratio }

/-- The callback `resize` (`App.jsx` lines 42-94): the camera fields and the four style
properties of the video are assigned, nothing else is. `camera.updateProjectionMatrix()` rebuilds
the renderer's matrix from these fields and is not part of the state here. -/
def resize (M : JSMath) (w : World) : World :=
  let l := resizeLocals M w
  { w with
    camera := { fov := l.fov, near := l.near, far := l.far,
                aspect := w.container.clientWidth / w.container.clientHeight }
    video := { w.video with
      style := { top := CssValue.px ((-(l.vh - w.container.clientHeight)) / 2)
                 left := CssValue.px ((-(l.vw - w.container.clientWidth)) / 2)
                 width := CssValue.px l.vw
                 height := CssValue.px l.vh } } }

/-- The argument of `Math.atan` in the formula kept in the comment of line 78:
`1 / proj[5] / vh * container.clientHeight`. -/
def fovArgOld (M : JSMath) (w : World) : JSNum :=
  1 / w.controller.getProjectionMatrix 5 / (resizeLocals M w).vh * w.container.clientHeight

/-- The handler `loadedMetadataHandler` (`App.jsx` lines 148-156): the `width` and `height`
attributes of the video and the input size of the controller become the native size of the
video. (`setReady(true)` only schedules `startAR`.) -/
def loadedMetadataHandler (w : World) : World :=
  { w with
    video := { w.video with width := w.video.videoWidth, height := w.video.videoHeight }
    controller := { w.controller with
      inputWidth := w.video.videoWidth, inputHeight := w.video.videoHeight } }

/-- The container is `cw` by `ch` and the native size of the video `vW` by `vH`, all four finite
and positive. -/
def PositiveDims (w : World) (cw ch vW vH : ℚ) : Prop :=
  w.container.clientWidth = fin cw ∧ w.container.clientHeight = fin ch ∧
    w.video.videoWidth = fin vW ∧ w.video.videoHeight = fin vH ∧
    0 < cw ∧ 0 < ch ∧ 0 < vW ∧ 0 < vH

/-- The input size of the controller and the `width` and `height` attributes of the video are the
native size of the video. -/
def InputMatchesVideo (w : World) : Prop :=
  w.controller.inputWidth = w.video.videoWidth ∧ w.video.width = w.video.videoWidth ∧
    w.controller.inputHeight = w.video.videoHeight ∧ w.video.height = w.video.videoHeight

/-! ## Matrices, `startAR` and the anchor store -/

/-- Vector of three numbers, `Vector3`. -/
structure Vector3 where
  x : JSNum
  y : JSNum
  z : JSNum
deriving DecidableEq

/-- Rotation `Quaternion`. -/
structure Quaternion where
  x : JSNum
  y : JSNum
  z : JSNum
  w : JSNum
deriving DecidableEq

/-- The 4x4 matrix `Matrix4`, by its sixteen `elements` in column-major order: `e0 .. e3` is the
first column and `e12 e13 e14` the translation. -/
structure Matrix4 where
  e0 : JSNum
  e1 : JSNum
  e2 : JSNum
  e3 : JSNum
  e4 : JSNum
  e5 : JSNum
  e6 : JSNum
  e7 : JSNum
  e8 : JSNum
  e9 : JSNum
  e10 : JSNum
  e11 : JSNum
  e12 : JSNum
  e13 : JSNum
  e14 : JSNum
  e15 : JSNum
deriving DecidableEq

/-- Modelled from the spec: `new Vector3()` of the library three.js, which is not part of the
repository; the zero vector. -/
def Vector3.new : Vector3 := { x := 0, y := 0, z := 0 }

/-- Modelled from the spec: `new Quaternion()` of three.js, which is not part of the repository;
the identity rotation `(0, 0, 0, 1)` (the zero rotation of the spec). -/
def Quaternion.new : Quaternion := { x := 0, y := 0, z := 0, w := 1 }

namespace Matrix4

/-- Modelled from the spec: `Matrix4.set` of three.js, which is not part of the repository; the
sixteen arguments come row by row and are stored column by column. -/
def set (n11 n12 n13 n14 n21 n22 n23 n24 n31 n32 n33 n34 n41 n42 n43 n44 : JSNum) : Matrix4 :=
  { e0 := n11, e4 := n12, e8 := n13, e12 := n14,
    e1 := n21, e5 := n22, e9 := n23, e13 := n24,
    e2 := n31, e6 := n32, e10 := n33, e14 := n34,
    e3 := n41, e7 := n42, e11 := n43, e15 := n44 }

/-- Modelled from the spec: `Matrix4.toArray` of three.js, which is not part of the repository;
the sixteen elements in column-major order. -/
def toArray (m : Matrix4) : List JSNum :=
  [m.e0, m.e1, m.e2, m.e3, m.e4, m.e5, m.e6, m.e7,
   m.e8, m.e9, m.e10, m.e11, m.e12, m.e13, m.e14, m.e15]

/-- Modelled from the spec: `Matrix4.fromArray` of three.js, which is not part of the repository;
element `k` is `array[k]`. An index past the end of the array reads `undefined`, which arithmetic
treats as `NaN`. -/
def fromArray (a : List JSNum) : Matrix4 :=
  { e0 := a.getD 0 nan, e1 := a.getD 1 nan, e2 := a.getD 2 nan, e3 := a.getD 3 nan,
    e4 := a.getD 4 nan, e5 := a.getD 5 nan, e6 := a.getD 6 nan, e7 := a.getD 7 nan,
    e8 := a.getD 8 nan, e9 := a.getD 9 nan, e10 := a.getD 10 nan, e11 := a.getD 11 nan,
    e12 := a.getD 12 nan, e13 := a.getD 13 nan, e14 := a.getD 14 nan, e15 := a.getD 15 nan }

/-- Element `te[k]` of the matrix. -/
def te (m : Matrix4) (k : Nat) : JSNum := m.toArray.getD k nan

/-- Modelled from the spec: `Matrix4.compose(position, quaternion, scale)` of three.js, which is
not part of the repository; translation times rotation times scale. -/
def compose (position : Vector3) (quaternion : Quaternion) (scale : Vector3) : Matrix4 :=
  let x := quaternion.x
  let y := quaternion.y
  let z := quaternion.z
  let w := quaternion.w
  let x2 := x + x
  let y2 := y + y
  let z2 := z + z
  let xx := x * x2
  let xy := x * y2
  let xz := x * z2
  let yy := y * y2
  let yz := y * z2
  let zz := z * z2
  let wx := w * x2
  let wy := w * y2
  let wz := w * z2
  let sx := scale.x
  let sy := scale.y
  let sz := scale.z
  { e0 := (1 - (yy + zz)) * sx
    e1 := (xy + wz) * sx
    e2 := (xz - wy) * sx
    e3 := 0
    e4 := (xy - wz) * sy
    e5 := (1 - (xx + zz)) * sy
    e6 := (yz + wx) * sy
    e7 := 0
    e8 := (xz + wy) * sz
    e9 := (yz - wx) * sz
    e10 := (1 - (xx + yy)) * sz
    e11 := 0
    e12 := position.x
    e13 := position.y
    e14 := position.z
    e15 := 1 }

/-- Modelled from the spec: `a.multiply(b)` of three.js (`multiplyMatrices(a, b)`), which is not
part of the repository; the matrix product with `a` on the left. -/
def multiply (a b : Matrix4) : Matrix4 :=
  let a11 := a.e0
  let a12 := a.e4
  let a13 := a.e8
  let a14 := a.e12
  let a21 := a.e1
  let a22 := a.e5
  let a23 := a.e9
  let a24 := a.e13
  let a31 := a.e2
  let a32 := a.e6
  let a33 := a.e10
  let a34 := a.e14
  let a41 := a.e3
  let a42 := a.e7
  let a43 := a.e11
  let a44 := a.e15
  let b11 := b.e0
  let b12 := b.e4
  let b13 := b.e8
  let b14 := b.e12
  let b21 := b.e1
  let b22 := b.e5
  let b23 := b.e9
  let b24 := b.e13
  let b31 := b.e2
  let b32 := b.e6
  let b33 := b.e10
  let b34 := b.e14
  let b41 := b.e3
  let b42 := b.e7
  let b43 := b.e11
  let b44 := b.e15
  { e0 := a11 * b11 + a12 * b21 + a13 * b31 + a14 * b41
    e4 := a11 * b12 + a12 * b22 + a13 * b32 + a14 * b42
    e8 := a11 * b13 + a12 * b23 + a13 * b33 + a14 * b43
    e12 := a11 * b14 + a12 * b24 + a13 * b34 + a14 * b44
    e1 := a21 * b11 + a22 * b21 + a23 * b31 + a24 * b41
    e5 := a21 * b12 + a22 * b22 + a23 * b32 + a24 * b42
    e9 := a21 * b13 + a22 * b23 + a23 * b33 + a24 * b43
    e13 := a21 * b14 + a22 * b24 + a23 * b34 + a24 * b44
    e2 := a31 * b11 + a32 * b21 + a33 * b31 + a34 * b41
    e6 := a31 * b12 + a32 * b22 + a33 * b32 + a34 * b42
    e10 := a31 * b13 + a32 * b23 + a33 * b33 + a34 * b43
    e14 := a31 * b14 + a32 * b24 + a33 * b34 + a34 * b44
    e3 := a41 * b11 + a42 * b21 + a43 * b31 + a44 * b41
    e7 := a41 * b12 + a42 * b22 + a43 * b32 + a44 * b42
    e11 := a41 * b13 + a42 * b23 + a43 * b33 + a44 * b43
    e15 := a41 * b14 + a42 * b24 + a43 * b34 + a44 * b44 }

end Matrix4

/-- Translation column of a matrix: the elements 12, 13 and 14. -/
def Matrix4.translation (m : Matrix4) : Vector3 := { x := m.e12, y := m.e13, z := m.e14 }

/-- Diagonal of the upper 3x3 block: the scale of a matrix that has no rotation. -/
def Matrix4.diagonalScale (m : Matrix4) : Vector3 := { x := m.e0, y := m.e5, z := m.e10 }

/-- The constant `invisibleMatrix` (`App.jsx` line 11). -/
def invisibleMatrix : Matrix4 :=
  Matrix4.set 0 0 0 0 0 0 0 0 0 0 0 0 0 0 0 1

/-- The `position`, `quaternion` and `scale` of one pass of the loop of `startAR`. -/
structure PostParts where
  position : Vector3
  quaternion : Quaternion
  scale : Vector3
deriving DecidableEq

/-- Lines 123-131 of `App.jsx`, for the entry `[markerWidth, markerHeight]` of the dimensions. -/
def postParts (d : JSNum × JSNum) : PostParts :=
  let position := Vector3.new
  let quaternion := Quaternion.new
  let scale := Vector3.new
  let markerWidth := d.1
  let markerHeight := d.2
  let position := { position with x := markerWidth / 2 }
  let position := { position with y := markerWidth / 2 + (markerHeight - markerWidth) / 2 }
  let scale := { scale with x := markerWidth }
  let scale := { scale with y := markerWidth }
  let scale := { scale with z := markerWidth }
  { position := position, quaternion := quaternion, scale := scale }

/-- Lines 132-133 of `App.jsx`: the matrix pushed for one entry of the dimensions. -/
def postMatrix (d : JSNum × JSNum) : Matrix4 :=
  let p := postParts d
  Matrix4.compose p.position p.quaternion p.scale

/-- The loop of `startAR` that fills `postMatrixs` (`App.jsx` lines 121-135): one matrix is
pushed per entry of `imageTargetDimensions`, from the first entry to the last. -/
def postMatrixs (imageTargetDimensions : List (JSNum × JSNum)) : List Matrix4 :=
  imageTargetDimensions.foldl (fun acc d => acc ++ [postMatrix d]) []

/-- The atom `anchorsAtom`: an object from target index to a stored array; `none` is a key that
is not set. -/
abbrev Anchors := Nat → Option (List JSNum)

/-- The initial value `{}` of `anchorsAtom`. -/
def Anchors.empty : Anchors := fun _ => none

/-- The event the tracking engine passes to `controller.onUpdate`; `worldMatrix` is `null` or an
array of numbers. -/
structure UpdateData where
  type : String
  targetIndex : Nat
  worldMatrix : Option (List JSNum)

/-- The callback `controller.onUpdate` (`App.jsx` lines 105-115) as the new value of the atom.
The result is `none` when the callback throws: `postMatrixs[targetIndex]` is `undefined` and
`multiply` reads its elements. -/
def onUpdate (postMatrixs : List Matrix4) (data : UpdateData) (anchors : Anchors) :
    Option Anchors :=
  if data.type = "updateMatrix" then
    let targetIndex := data.targetIndex
    match data.worldMatrix with
    | some worldMatrix =>
      match postMatrixs.get? targetIndex with
      | some post =>
        some (fun k => if k = targetIndex then
          some ((Matrix4.fromArray worldMatrix).multiply post).toArray else anchors k)
      | none => none
    | none =>
      some (fun k => if k = targetIndex then some invisibleMatrix.toArray else anchors k)
  else
    some anchors

/-- The scene node behind the `ref` of `ARAnchor`. -/
structure Node where
  visible : Bool
  matrix : Matrix4
deriving DecidableEq

/-- The effect of `ARAnchor` (`App.jsx` lines 198-214) on `ref.current`. A stored array is an
object and so is truthy whatever its entries; only a key that is not set is falsy. -/
def ARAnchor.effect (controller : Controller) (anchor : Anchors) (target : Nat)
    (ref : Option Node) : Option Node :=
  match ref with
  | none => none
  | some node =>
    if controller.inputWidth = 0 then
      some node
    else
      match anchor target with
      | some a => some { node with visible := true, matrix := Matrix4.fromArray a }
      | none => some { node with visible := false }

/-! ## Sample inputs -/

/-- Stand-in for `Math` in the examples, none of which depends on it: the identity for `atan`
and 22/7 for `PI`. -/
def sampleMath : JSMath := { atan := fun x => x, PI := fin (22 / 7) }

/-- Perspective projection in the layout of the engine, column-major: near plane 1, far plane 3
(elements 10 and 14 are -(3 + 1) / (3 - 1) and -2 * 3 * 1 / (3 - 1)). -/
def sampleProjection : Nat → JSNum := fun k =>
  if k = 0 then fin 2 else if k = 5 then fin (3 / 2) else if k = 10 then fin (-2)
  else if k = 11 then fin (-1) else if k = 14 then fin (-3) else fin 0

/-- Projection array whose elements 10 and 14 are 0 and -1. -/
def flippedProjection : Nat → JSNum := fun k =>
  if k = 0 then fin 1 else if k = 5 then fin 1 else if k = 14 then fin (-1) else fin 0

/-- Sample state: a 640 by 480 video whose attributes and controller input match it, in a
container of the given size, with the given projection array; the camera and the style are as
the renderer and the `Webcam` element start them. -/
def sampleWorld (clientWidth clientHeight : ℚ) (proj : Nat → JSNum) : World :=
  { camera := { fov := fin 75, near := fin (1 / 10), far := fin 1000, aspect := fin 1 }
    video := { videoWidth := fin 640, videoHeight := fin 480, width := fin 640, height := fin 480
               style := { top := CssValue.px (fin 0), left := CssValue.px (fin 0)
                          width := CssValue.unset, height := CssValue.unset } }
    container := { clientWidth := fin clientWidth, clientHeight := fin clientHeight }
    controller := { inputWidth := fin 640, inputHeight := fin 480, getProjectionMatrix := proj } }

/-! ## Arithmetic on finite values -/

namespace JSNum

@[simp] theorem ofNat_eq_fin (n : Nat) [n.AtLeastTwo] :
    (OfNat.ofNat n : JSNum) = fin (OfNat.ofNat n) := by
  show fin ((OfNat.ofNat n : ℕ) : ℚ) = fin (OfNat.ofNat n)
  rfl

@[simp] theorem zero_eq_fin : (0 : JSNum) = fin 0 := by
  show fin ((0 : ℕ) : ℚ) = fin 0
  simp

@[simp] theorem one_eq_fin : (1 : JSNum) = fin 1 := by
  show fin ((1 : ℕ) : ℚ) = fin 1
  simp

@[simp] theorem fin_add_fin (a b : ℚ) : fin a + fin b = fin (a + b) := rfl

@[simp] theorem fin_sub_fin (a b : ℚ) : fin a - fin b = fin (a - b) := by
  show fin (a + -b) = fin (a - b)
  rw [sub_eq_add_neg]

@[simp] theorem neg_fin (a : ℚ) : -fin a = fin (-a) := rfl

@[simp] theorem fin_mul_fin (a b : ℚ) : fin a * fin b = fin (a * b) := rfl

theorem fin_div_fin (a b : ℚ) (hb : b ≠ 0) : fin a / fin b = fin (a / b) := by
  show div (fin a) (fin b) = fin (a / b)
  simp [div, hb]

@[simp] theorem fin_div_two (a : ℚ) : fin a / fin 2 = fin (a / 2) :=
  fin_div_fin a 2 (by norm_num)

@[simp] theorem gt_fin_fin (a b : ℚ) : gt (fin a) (fin b) = decide (b < a) := rfl

@[simp] theorem lt_fin_fin (a b : ℚ) : lt (fin a) (fin b) = decide (a < b) := rfl

@[simp] theorem ge_fin_fin (a b : ℚ) : ge (fin a) (fin b) = decide (b ≤ a) := rfl

@[simp] theorem le_fin_fin (a b : ℚ) : le (fin a) (fin b) = decide (a ≤ b) := rfl

end JSNum

/-! ## The post-transforms of `startAR` -/

theorem foldl_push_eq_map {α β : Type} (f : α → β) (l : List α) (init : List β) :
    l.foldl (fun acc d => acc ++ [f d]) init = init ++ l.map f := by
  induction l generalizing init with
  | nil => simp
  | cons a t ih => simp [ih]

theorem postMatrixs_eq_map (dims : List (JSNum × JSNum)) :
    postMatrixs dims = dims.map postMatrix := by
  simp [postMatrixs, foldl_push_eq_map]

theorem postMatrix_fin (wq hq : ℚ) :
    postMatrix (fin wq, fin hq) =
      Matrix4.set (fin wq) 0 0 (fin (wq / 2))
                  0 (fin wq) 0 (fin (wq / 2 + (hq - wq) / 2))
                  0 0 (fin wq) 0
                  0 0 0 1 := by
  simp [postMatrix, postParts, Matrix4.compose, Matrix4.set, Vector3.new, Quaternion.new]

/-- C3, as the spec states it, fails: for the target of width 1 and height 11/20 the translation
of the post-transform is not (1/2, 9/40, 0). -/
theorem c3_translation_counterexample :
    ¬ ((postMatrixs [(fin 1, fin (11 / 20))]).map Matrix4.translation =
        [{ x := fin (1 / 2), y := fin (9 / 40), z := fin 0 }]) := by
  rw [postMatrixs_eq_map]
  simp only [List.map, postMatrix_fin, Matrix4.translation, Matrix4.set]
  intro h
  have h2 := congrArg (fun l => l.map Vector3.y) h
  simp only [List.map] at h2
  injection h2 with h3
  injection h3 with h4
  norm_num at h4

/-- C3, amended: for the target of width 1 and height 11/20, the loop of `startAR` composes the
position (1/2, 11/40, 0), the identity rotation and the scale (1, 1, 1); the matrix it pushes has
translation (1/2, 11/40, 0), scale (1, 1, 1) and is the identity elsewhere. -/
theorem c3_post_transform_example :
    postParts (fin 1, fin (11 / 20)) =
        { position := { x := fin (1 / 2), y := fin (11 / 40), z := fin 0 }
          quaternion := Quaternion.new
          scale := { x := fin 1, y := fin 1, z := fin 1 } } ∧
      postMatrixs [(fin 1, fin (11 / 20))] =
        [Matrix4.set (fin 1) (fin 0) (fin 0) (fin (1 / 2))
                     (fin 0) (fin 1) (fin 0) (fin (11 / 40))
                     (fin 0) (fin 0) (fin 1) (fin 0)
                     (fin 0) (fin 0) (fin 0) (fin 1)] ∧
      (postMatrixs [(fin 1, fin (11 / 20))]).map Matrix4.translation =
        [{ x := fin (1 / 2), y := fin (11 / 40), z := fin 0 }] ∧
      (postMatrixs [(fin 1, fin (11 / 20))]).map Matrix4.diagonalScale =
        [{ x := fin 1, y := fin 1, z := fin 1 }] := by
  refine ⟨?_, ?_, ?_, ?_⟩
  · simp [postParts, Vector3.new]
    norm_num
  · rw [postMatrixs_eq_map]
    simp [postMatrix_fin, Matrix4.set]
    norm_num
  · rw [postMatrixs_eq_map]
    simp [postMatrix_fin, Matrix4.set, Matrix4.translation]
    norm_num
  · rw [postMatrixs_eq_map]
    simp [postMatrix_fin, Matrix4.set, Matrix4.diagonalScale]

/-- C4: `postMatrixs` has one entry per target, in the order of the targets; entry `i` is the
composition of the translation (w/2, w/2 + (h-w)/2, 0), the identity rotation and the scale
(w, w, w) for `[w, h] = dimensions[i]`; for finite `w` and `h` it is the matrix of diagonal
(w, w, w, 1), translation column (w/2, w/2 + (h-w)/2, 0) and zeros elsewhere; and it is the same
for every list of dimensions that has the same entry at `i`. -/
theorem c4_post_transform_formula (dims : List (JSNum × JSNum)) (i : Nat)
    (hi : i < dims.length) :
    (postMatrixs dims).length = dims.length ∧
      (postMatrixs dims).get? i =
        some (Matrix4.compose
          { x := (dims.get ⟨i, hi⟩).1 / 2
            y := (dims.get ⟨i, hi⟩).1 / 2 + ((dims.get ⟨i, hi⟩).2 - (dims.get ⟨i, hi⟩).1) / 2
            z := 0 }
          Quaternion.new
          { x := (dims.get ⟨i, hi⟩).1, y := (dims.get ⟨i, hi⟩).1, z := (dims.get ⟨i, hi⟩).1 }) ∧
      (∀ wq hq : ℚ, dims.get ⟨i, hi⟩ = (fin wq, fin hq) →
        (postMatrixs dims).get? i =
          some (Matrix4.set (fin wq) 0 0 (fin (wq / 2))
                            0 (fin wq) 0 (fin (wq / 2 + (hq - wq) / 2))
                            0 0 (fin wq) 0
                            0 0 0 1)) ∧
      (∀ dims2 : List (JSNum × JSNum), dims2.get? i = dims.get? i →
        (postMatrixs dims2).get? i = (postMatrixs dims).get? i) := by
  have hget : dims.get? i = some (dims.get ⟨i, hi⟩) := List.get?_eq_get hi
  have hpost : (postMatrixs dims).get? i = some (postMatrix (dims.get ⟨i, hi⟩)) := by
    rw [postMatrixs_eq_map, List.get?_eq_getElem?, List.getElem?_map, ← List.get?_eq_getElem?, hget]
    rfl
  refine ⟨?_, ?_, ?_, ?_⟩
  · rw [postMatrixs_eq_map, List.length_map]
  · rw [hpost]
    rfl
  · intro wq hq hd
    rw [hpost, hd, postMatrix_fin]
  · intro dims2 h2
    simp only [postMatrixs_eq_map, List.get?_eq_getElem?, List.getElem?_map] at h2 ⊢
    rw [h2]

/-- C4 at the two targets [1, 11/20] and [2, 3], index 1. -/
theorem c4_post_transform_formula_witness :
    (postMatrixs [(fin 1, fin (11 / 20)), (fin 2, fin 3)]).length = 2 ∧
      (postMatrixs [(fin 1, fin (11 / 20)), (fin 2, fin 3)]).get? 1 =
        some (Matrix4.set (fin 2) 0 0 (fin (2 / 2))
                          0 (fin 2) 0 (fin (2 / 2 + (3 - 2) / 2))
                          0 0 (fin 2) 0
                          0 0 0 1) :=
  ⟨(c4_post_transform_formula [(fin 1, fin (11 / 20)), (fin 2, fin 3)] 1 (by decide)).1,
   (c4_post_transform_formula [(fin 1, fin (11 / 20)), (fin 2, fin 3)] 1 (by decide)).2.2.1
      2 3 rfl⟩

/-! ## The anchor store and the binding of `ARAnchor` -/

/-- Entry (r, c) of `a.multiply b` is row `r` of `a` times column `c` of `b`, with the
elements of both in column-major order. -/
theorem Matrix4.multiply_te (a b : Matrix4) (r c : Nat) (hr : r < 4) (hc : c < 4) :
    (a.multiply b).te (r + 4 * c) =
      a.te r * b.te (4 * c) + a.te (r + 4) * b.te (4 * c + 1)
        + a.te (r + 8) * b.te (4 * c + 2) + a.te (r + 12) * b.te (4 * c + 3) := by
  interval_cases r <;> interval_cases c <;> rfl

theorem Matrix4.toArray_length (m : Matrix4) : m.toArray.length = 16 := rfl

theorem Matrix4.fromArray_toArray (m : Matrix4) : Matrix4.fromArray m.toArray = m := rfl

theorem invisibleMatrix_toArray :
    invisibleMatrix.toArray = [0, 0, 0, 0, 0, 0, 0, 0, 0, 0, 0, 0, 0, 0, 0, 1] := rfl

theorem onUpdate_null (pm : List Matrix4) (data : UpdateData) (anchors : Anchors)
    (ht : data.type = "updateMatrix") (hw : data.worldMatrix = none) :
    onUpdate pm data anchors =
      some (fun k => if k = data.targetIndex then some invisibleMatrix.toArray else anchors k) := by
  unfold onUpdate
  rw [if_pos ht]
  simp only [hw]

theorem onUpdate_pose (pm : List Matrix4) (data : UpdateData) (anchors : Anchors)
    (wm : List JSNum) (post : Matrix4)
    (ht : data.type = "updateMatrix") (hw : data.worldMatrix = some wm)
    (hpost : pm.get? data.targetIndex = some post) :
    onUpdate pm data anchors =
      some (fun k => if k = data.targetIndex then
        some ((Matrix4.fromArray wm).multiply post).toArray else anchors k) := by
  unfold onUpdate
  rw [if_pos ht]
  simp only [hw, hpost]

theorem JSNum.fin_div_fin_eq (a b : ℚ) :
    fin a / fin b = if b = 0 then infTimes a true else fin (a / b) := rfl

theorem sampleWorld_positive (cw ch : ℚ) (proj : Nat → JSNum) (hw : 0 < cw) (hh : 0 < ch) :
    PositiveDims (sampleWorld cw ch proj) cw ch 640 480 :=
  ⟨rfl, rfl, rfl, rfl, hw, hh, by norm_num, by norm_num⟩

/-- The display size of the video in closed form, for positive finite dimensions. -/
theorem resizeLocals_display (M : JSMath) (w : World) (cw ch vW vH : ℚ)
    (h : PositiveDims w cw ch vW vH) :
    (resizeLocals M w).vw = fin (if cw / ch < vW / vH then ch * (vW / vH) else cw) ∧
    (resizeLocals M w).vh = fin (if cw / ch < vW / vH then ch else cw / (vW / vH)) := by
  obtain ⟨h1, h2, h3, h4, _, p2, p3, p4⟩ := h
  have hr : vW / vH ≠ 0 := (div_pos p3 p4).ne'
  simp only [resizeLocals, h1, h2, h3, h4, fin_div_fin _ _ p2.ne', fin_div_fin _ _ p4.ne',
    gt_fin_fin]
  by_cases hc : cw / ch < vW / vH
  · simp [hc]
  · simp [hc, fin_div_fin _ _ hr]

theorem resize_style (M : JSMath) (w : World) :
    (resize M w).video.style =
      { top := CssValue.px ((-((resizeLocals M w).vh - w.container.clientHeight)) / 2)
        left := CssValue.px ((-((resizeLocals M w).vw - w.container.clientWidth)) / 2)
        width := CssValue.px (resizeLocals M w).vw
        height := CssValue.px (resizeLocals M w).vh } := rfl

theorem resize_camera (M : JSMath) (w : World) :
    (resize M w).camera =
      { fov := (resizeLocals M w).fov, near := (resizeLocals M w).near
        far := (resizeLocals M w).far
        aspect := w.container.clientWidth / w.container.clientHeight } := rfl

/-- The display size covers the container, for positive finite dimensions. -/
theorem resizeLocals_cover (M : JSMath) (w : World) (cw ch vW vH : ℚ)
    (h : PositiveDims w cw ch vW vH) :
    ge (resizeLocals M w).vw w.container.clientWidth = true ∧
      ge (resizeLocals M w).vh w.container.clientHeight = true := by
  obtain ⟨hvw, hvh⟩ := resizeLocals_display M w cw ch vW vH h
  obtain ⟨h1, h2, _, _, _, p2, p3, p4⟩ := h
  have hr : 0 < vW / vH := div_pos p3 p4
  constructor
  · rw [hvw, h1, ge_fin_fin, decide_eq_true_eq]
    split_ifs with hc
    · have := (div_lt_iff₀ p2).mp hc
      linarith [mul_comm (vW / vH) ch]
    · exact le_refl _
  · rw [hvh, h2, ge_fin_fin, decide_eq_true_eq]
    split_ifs with hc
    · exact le_refl _
    · rw [le_div_iff₀ hr]
      have := (le_div_iff₀ p2).mp (not_lt.mp hc)
      linarith [mul_comm (vW / vH) ch]

theorem resizeLocals_near_far (M : JSMath) (w : World) (p10 p14 : ℚ)
    (h10 : w.controller.getProjectionMatrix 10 = fin p10)
    (h14 : w.controller.getProjectionMatrix 14 = fin p14)
    (hne1 : p10 ≠ 1) (hne2 : p10 ≠ -1) :
    (resizeLocals M w).near = fin (p14 / (p10 - 1)) ∧
      (resizeLocals M w).far = fin (p14 / (p10 + 1)) := by
  have ha : p10 - 1 ≠ 0 := sub_ne_zero.mpr hne1
  have hb : p10 + 1 ≠ 0 := fun hx => hne2 (by linarith)
  simp only [resizeLocals, h10, h14, one_eq_fin, fin_sub_fin, fin_add_fin,
    fin_div_fin _ _ ha, fin_div_fin _ _ hb, and_self]

theorem near_lt_far_iff (p10 p14 : ℚ) (hne1 : p10 ≠ 1) (hne2 : p10 ≠ -1) :
    p14 / (p10 - 1) < p14 / (p10 + 1) ↔ p14 * (p10 ^ 2 - 1) < 0 := by
  have ha : p10 - 1 ≠ 0 := sub_ne_zero.mpr hne1
  have hb : p10 + 1 ≠ 0 := fun hx => hne2 (by linarith)
  have hab : (p10 - 1) * (p10 + 1) ≠ 0 := mul_ne_zero ha hb
  have hsq : 0 < ((p10 - 1) * (p10 + 1)) ^ 2 := by positivity
  have key : p14 / (p10 - 1) - p14 / (p10 + 1)
      = 2 * (p14 * (p10 ^ 2 - 1)) / ((p10 - 1) * (p10 + 1)) ^ 2 := by
    field_simp
    ring
  rw [← sub_neg, key, div_lt_iff₀ hsq, zero_mul]
  constructor <;> intro hx <;> linarith

theorem loadedMetadataHandler_matches (w : World) :
    InputMatchesVideo (loadedMetadataHandler w) := ⟨rfl, rfl, rfl, rfl⟩

/-- The two ways of scaling by containerHeight / vh agree on every JavaScript number. -/
theorem mul_div_eq_div_mul (x : JSNum) (ch vh : ℚ) (hch : 0 < ch) (hvh : 0 < vh) :
    x * fin (ch / vh) = x / fin vh * fin ch := by
  have hq : 0 < ch / vh := div_pos hch hvh
  cases x with
  | fin a =>
    rw [fin_div_fin _ _ hvh.ne', fin_mul_fin, fin_mul_fin]
    congr 1
    field_simp
  | pinf =>
    show infTimes (ch / vh) true = mul (div pinf (fin vh)) (fin ch)
    simp [div, mul, infTimes, hvh.le, hq.ne', hq, hch.ne', hch]
  | ninf =>
    show infTimes (ch / vh) false = mul (div ninf (fin vh)) (fin ch)
    simp [div, mul, infTimes, hvh.le, hq.ne', hq, hch.ne', hch]
  | nan => rfl

end ReactThreeMind
